import Mathlib

/-!
Verification of the MBES speed / survey-planning calculation engine
(`mbes_speed_app.py`) against its natural-language specification.

The Python source is shallowly embedded over the real numbers: each pure
helper function (`ping_interval`, `along_track_footprint`, `swath_width`,
`compute_detection_limit`, `compute_tvu`, `s44_cubic_feature_requirement`)
becomes a Lean function of the same name, and the calculation body executed
when the "Calculate" button is pressed becomes `run_speed_calc` (speed
calculator) and `run_planner_calc` (survey planner), returning
`Except CalcError` to mirror the fail-fast `st.error` / `return` paths and
Python `ZeroDivisionError` exceptions.  Division by zero in ℝ follows
Lean's `x / 0 = 0` convention; everywhere a Python float division could
hit an exactly-zero divisor, the embedding inserts an explicit
`genericException` branch so that the error behaviour matches the source.
-/

namespace Mbes

noncomputable section

/-- Degrees to radians, as `math.radians` in the source. -/
def radians (d : ℝ) : ℝ := d * Real.pi / 180

/-- Constant `MIN_SPEED_RATIO = 0.5` (source line 49): minimum operational speed is
half the optimum speed. -/
def MIN_SPEED_RATIO : ℝ := 0.5

/-- Constant `KNOTS_PER_M_S = 1.94384449244` (source line 107). -/
def KNOTS_PER_M_S : ℝ := 1.94384449244

/-- Constant `KM_PER_NM = 1.852` (source line 108). -/
def KM_PER_NM : ℝ := 1.852

/-- The IHO survey orders selectable in the app (`ORDERS`, source lines
88-95). -/
inductive SurveyOrder
  | specialOrder
  | order1a
  | order1b
  | order2
  | exclusiveOrder
  | custom
deriving DecidableEq

/-- Table `ORDER_COVERAGE` (source lines 35-46): S-44 style coverage preset per
order, `none` for the "Custom" entry. -/
def ORDER_COVERAGE : SurveyOrder → Option ℝ
  | .exclusiveOrder => some 200
  | .specialOrder => some 100
  | .order1a => some 100
  | .order1b => some 100
  | .order2 => some 100
  | .custom => none

/-- Table `ORDER_TVU_AB` (source lines 54-60): S-44 Table 1 TVU coefficients. -/
def ORDER_TVU_AB : SurveyOrder → Option (ℝ × ℝ)
  | .specialOrder => some (0.25, 0.0075)
  | .order1a => some (0.5, 0.013)
  | .order1b => some (0.5, 0.013)
  | .order2 => some (1.0, 0.023)
  | .exclusiveOrder => some (0.15, 0.0075)
  | .custom => none

/-- Function `s44_cubic_feature_requirement` (source lines 67-85): cubic-feature
detection threshold for a given order and depth; `none` when the order
carries no explicit requirement. -/
def s44_cubic_feature_requirement (order_name : SurveyOrder) (depth_m : ℝ) :
    Option ℝ :=
  match order_name with
  | .exclusiveOrder => some 0.5
  | .specialOrder => some 1.0
  | .order1a => if depth_m ≤ 40 then some 2.0 else some (0.10 * depth_m)
  | _ => none

/-- Function `ping_interval` (source lines 114-132): two-way travel time to the
outer beam plus dead time,
`θ = swath/2; R = D / cos θ; T = 2R/c + Δt`. -/
def ping_interval (depth_m sound_speed_ms dead_time_s swath_deg : ℝ) : ℝ :=
  let theta_rad := radians (swath_deg / 2)
  let R := depth_m / Real.cos theta_rad
  let t_2way := 2 * R / sound_speed_ms
  t_2way + dead_time_s

/-- Function `along_track_footprint` (source lines 136-142):
`L = 2 · D · tan(φᵀ/2)`. -/
def along_track_footprint (depth_m tx_beam_width_deg : ℝ) : ℝ :=
  2 * depth_m * Real.tan (radians (tx_beam_width_deg / 2))

/-- Function `swath_width` (source lines 145-151): `W = 2 · D · tan(θ/2)`. -/
def swath_width (depth_m swath_deg : ℝ) : ℝ :=
  2 * depth_m * Real.tan (radians (swath_deg / 2))

/-- Embedding of `math.hypot`. -/
def hypot (x y : ℝ) : ℝ := Real.sqrt (x ^ 2 + y ^ 2)

/-- Function `compute_detection_limit` (source lines 154-171): grid-cell diagonal
divided by four. -/
def compute_detection_limit (along_step across_step : ℝ) : ℝ :=
  hypot along_step across_step / 4

/-- Function `compute_tvu` (source lines 175-181): `sqrt(a² + (b·d)²)` when the
order has (a, b) coefficients. -/
def compute_tvu (depth_m : ℝ) (order_name : SurveyOrder) : Option ℝ :=
  (ORDER_TVU_AB order_name).map fun ab =>
    Real.sqrt (ab.1 * ab.1 + (ab.2 * depth_m) ^ 2)

/-- The engine inputs gathered by the sidebar / main panel before the
"Calculate" button runs (source lines 195-304). -/
structure Inputs where
  depth : ℝ
  swath_deg : ℝ
  beam_width_deg : ℝ
  sound_speed : ℝ
  coverage_pct_user : ℝ
  turn_margin : ℝ
  dead_time : ℝ
  speed_sf : ℝ
  order_preset : SurveyOrder
  bottom_type_factor : ℝ

/-- Definition `effective_coverage_pct = max(100.0, coverage_pct_user - turn_margin)`
(source line 242). -/
def effective_coverage_pct (inp : Inputs) : ℝ :=
  max 100 (inp.coverage_pct_user - inp.turn_margin)

/-- The error outcomes of a calculation run.  The source has no exception
classes: `depthSoundSpeedError` and `coverageError` are the explicit
`st.error` / `return` branches (lines 390-396), `nonPositiveSpeedError` is
the planner-mode guard (lines 481-483), and `genericException` is a Python
`ZeroDivisionError` caught by the blanket `except Exception` (line 590). -/
inductive CalcError
  | depthSoundSpeedError
  | coverageError
  | nonPositiveSpeedError
  | genericException
deriving DecidableEq

/-- The quantities derived by the core calculation (source lines 398-435),
the terminal artifact consumed by both display modes. -/
structure SpeedResult where
  T : ℝ
  L : ℝ
  W : ℝ
  advance_fraction : ℝ
  along_step : ℝ
  speed_ms : ℝ
  speed_kts : ℝ
  v_opt_ms : ℝ
  v_opt_knots : ℝ
  v_min_ms : ℝ
  v_min_knots : ℝ
  line_spacing : ℝ
  overlap_pct : ℝ
  det_req : Option ℝ
  det_req_eff : Option ℝ
  det_limit : Option ℝ
  det_pass : Option Bool
  tvu_val : Option ℝ

/-- The core derivation (source lines 398-435), as a pure function of the
inputs.  `det_pass` records the verdict displayed at lines 564-577: the
source compares `det_limit <= det_req` (the raw requirement; the tightened
`det_req_eff` is computed at line 432 but never used in the comparison). -/
def speed_result (inp : Inputs) : SpeedResult :=
  let C_eff := effective_coverage_pct inp / 100
  let T := ping_interval inp.depth inp.sound_speed inp.dead_time inp.swath_deg
  let L := along_track_footprint inp.depth inp.beam_width_deg
  let W := swath_width inp.depth inp.swath_deg
  let advance_fraction := 1 / C_eff
  let along_step := advance_fraction * L
  let speed_ms := along_step / T
  let speed_kts := speed_ms * KNOTS_PER_M_S
  let v_opt_ms := speed_ms * inp.speed_sf
  let v_opt_knots := speed_kts * inp.speed_sf
  let v_min_ms := v_opt_ms * MIN_SPEED_RATIO
  let v_min_knots := v_opt_knots * MIN_SPEED_RATIO
  let line_spacing := W / C_eff
  let overlap_pct := max 0 (1 - line_spacing / W) * 100
  let det_req := s44_cubic_feature_requirement inp.order_preset inp.depth
  let det_req_eff := det_req.map fun r => r * inp.bottom_type_factor
  let det_limit := det_req.map fun _ =>
    compute_detection_limit along_step line_spacing
  let det_pass := det_req.bind fun r =>
    det_limit.map fun l => decide (l ≤ r)
  let tvu_val := compute_tvu inp.depth inp.order_preset
  { T, L, W, advance_fraction, along_step, speed_ms, speed_kts, v_opt_ms,
    v_opt_knots, v_min_ms, v_min_knots, line_spacing, overlap_pct, det_req,
    det_req_eff, det_limit, det_pass, tvu_val }

/-- One "Calculate" run of the core calculation (source lines 387-435).
The two leading guards are the explicit sanity checks; the two
`genericException` guards are the places where an exactly-zero divisor
would raise `ZeroDivisionError` in the source (`speed_ms = along_step / T`
at line 407 and `overlap = 1 - line_spacing / W` at line 423), reaching the
blanket `except Exception`. -/
def run_speed_calc (inp : Inputs) : Except CalcError SpeedResult :=
  if inp.depth ≤ 0 ∨ inp.sound_speed ≤ 0 then .error .depthSoundSpeedError
  else if effective_coverage_pct inp < 100 then .error .coverageError
  else if ping_interval inp.depth inp.sound_speed inp.dead_time
      inp.swath_deg = 0 then .error .genericException
  else if swath_width inp.depth inp.swath_deg = 0 then
    .error .genericException
  else .ok (speed_result inp)

/-- Planner-mode inputs (source lines 328-375). -/
structure PlannerInputs where
  area_length_m : ℝ
  area_width_m : ℝ
  daily_hours : ℝ
  weather_downtime_pct : ℝ
  overhead_pct : ℝ
  fuel_burn_lph : ℝ
  fuel_price : ℝ

/-- Planner-mode aggregates (source lines 476-542). -/
structure PlannerResult where
  n_lines : ℤ
  line_length_km : ℝ
  total_track_km : ℝ
  survey_hours : ℝ
  survey_hours_eff : ℝ
  survey_hours_weather : ℝ
  survey_days : ℝ
  fuel_l : Option ℝ
  fuel_cost : Option ℝ

/-- The planner aggregation (source lines 476-494, 536-542) as a pure
function of the speed result and the area/operational inputs. -/
def planner_result (r : SpeedResult) (p : PlannerInputs) : PlannerResult :=
  let n_lines : ℤ := max 1 ⌈p.area_width_m / r.line_spacing⌉
  let line_length_km := p.area_length_m / 1000
  let total_track_km := (n_lines : ℝ) * line_length_km
  let survey_hours := total_track_km / (r.speed_kts * KM_PER_NM)
  let survey_hours_eff := survey_hours * (1 + p.overhead_pct / 100)
  let survey_hours_weather :=
    survey_hours_eff * (1 + p.weather_downtime_pct / 100)
  let survey_days := survey_hours_weather / p.daily_hours
  let fuel_l := if 0 < p.fuel_burn_lph then
    some (p.fuel_burn_lph * survey_hours_weather) else none
  let fuel_cost := fuel_l.bind fun fl =>
    if 0 < p.fuel_price then some (fl * p.fuel_price) else none
  { n_lines, line_length_km, total_track_km, survey_hours, survey_hours_eff,
    survey_hours_weather, survey_days, fuel_l, fuel_cost }

/-- One "Calculate" run in survey-planner mode (source lines 387-494): the
core calculation followed by the planner aggregation.  The
`speed_kts ≤ 0` guard is the source's lines 481-483; the `daily_hours = 0`
branch is where `survey_days = survey_hours_weather / daily_hours`
(line 494) would raise `ZeroDivisionError`.  (`line_spacing` is non-zero
whenever `run_speed_calc` succeeds, so `area_width_m / line_spacing` at
line 476 cannot raise.) -/
def run_planner_calc (inp : Inputs) (p : PlannerInputs) :
    Except CalcError (SpeedResult × PlannerResult) :=
  match run_speed_calc inp with
  | .error e => .error e
  | .ok r =>
    if r.speed_kts ≤ 0 then .error .nonPositiveSpeedError
    else if p.daily_hours = 0 then .error .genericException
    else .ok (r, planner_result r p)

/-- Exclusive Order over a rough bottom (factor 0.5) at 1 m depth with a
90° swath, 90° beam width and the order's preset 200 % coverage: the grid
steps come out at 1 m × 1 m, detection limit √2/4 ≈ 0.354 m. -/
def bugInput : Inputs :=
  { depth := 1, swath_deg := 90, beam_width_deg := 90, sound_speed := 1500,
    coverage_pct_user := 200, turn_margin := 0, dead_time := 0.02,
    speed_sf := 0.8, order_preset := .exclusiveOrder,
    bottom_type_factor := 0.5 }

/-- A run with total swath 200° (outer-beam angle 100° ≥ 90°). -/
def c2Input : Inputs :=
  { depth := 100, swath_deg := 200, beam_width_deg := 1.5,
    sound_speed := 1500, coverage_pct_user := 200, turn_margin := 0,
    dead_time := 0.05, speed_sf := 0.8, order_preset := .exclusiveOrder,
    bottom_type_factor := 1 }

/-- A run with total swath 190°, outside the spec's (0, 180) domain. -/
def c3Input : Inputs :=
  { depth := 100, swath_deg := 190, beam_width_deg := 1.5,
    sound_speed := 1500, coverage_pct_user := 200, turn_margin := 0,
    dead_time := 0.05, speed_sf := 0.8, order_preset := .specialOrder,
    bottom_type_factor := 1 }

/-- A run with beam width 0: validation passes, the footprint collapses to
zero and the derived maximum speed is 0. -/
def c4Input : Inputs :=
  { depth := 100, swath_deg := 120, beam_width_deg := 0,
    sound_speed := 1500, coverage_pct_user := 200, turn_margin := 0,
    dead_time := 0.05, speed_sf := 0.8, order_preset := .custom,
    bottom_type_factor := 1 }

/-- A fully valid run at the app's default-style values with requested
coverage 100 %. -/
def goodInput : Inputs :=
  { depth := 100, swath_deg := 120, beam_width_deg := 1.5,
    sound_speed := 1500, coverage_pct_user := 100, turn_margin := 0,
    dead_time := 0.05, speed_sf := 0.8, order_preset := .specialOrder,
    bottom_type_factor := 1 }

/-- A valid run with a wide (90°) transmit beam, giving a strictly positive
speed for planner-mode runs. -/
def w9Input : Inputs :=
  { depth := 100, swath_deg := 120, beam_width_deg := 90,
    sound_speed := 1500, coverage_pct_user := 200, turn_margin := 0,
    dead_time := 0.05, speed_sf := 0.8, order_preset := .custom,
    bottom_type_factor := 1 }

/-- The planner-mode defaults from the source's widgets. -/
def plannerBase : PlannerInputs :=
  { area_length_m := 5000, area_width_m := 2000, daily_hours := 12,
    weather_downtime_pct := 20, overhead_pct := 15, fuel_burn_lph := 0,
    fuel_price := 0 }

end

end Mbes

namespace Mbes

/-! ### Basic facts about the embedded helper functions -/

theorem cos_radians_half_pos {s : ℝ} (h1 : 0 < s) (h2 : s < 180) :
    0 < Real.cos (radians (s / 2)) := by
  apply Real.cos_pos_of_mem_Ioo
  have hpi := Real.pi_pos
  constructor
  · unfold radians
    nlinarith [mul_pos h1 hpi]
  · unfold radians
    nlinarith [mul_pos (show (0:ℝ) < 180 - s by linarith) hpi]

theorem cos_radians_half_neg {s : ℝ} (h1 : 180 < s) (h2 : s < 540) :
    Real.cos (radians (s / 2)) < 0 := by
  apply Real.cos_neg_of_pi_div_two_lt_of_lt
  · unfold radians
    nlinarith [mul_pos (show (0:ℝ) < s - 180 by linarith) Real.pi_pos]
  · unfold radians
    nlinarith [mul_pos (show (0:ℝ) < 540 - s by linarith) Real.pi_pos]

theorem sin_radians_half_pos {s : ℝ} (h1 : 0 < s) (h2 : s < 360) :
    0 < Real.sin (radians (s / 2)) := by
  apply Real.sin_pos_of_pos_of_lt_pi
  · unfold radians
    nlinarith [mul_pos h1 Real.pi_pos]
  · unfold radians
    nlinarith [mul_pos (show (0:ℝ) < 360 - s by linarith) Real.pi_pos]

theorem tan_radians_half_pos {s : ℝ} (h1 : 0 < s) (h2 : s < 180) :
    0 < Real.tan (radians (s / 2)) := by
  apply Real.tan_pos_of_pos_of_lt_pi_div_two
  · unfold radians
    nlinarith [mul_pos h1 Real.pi_pos]
  · unfold radians
    nlinarith [mul_pos (show (0:ℝ) < 180 - s by linarith) Real.pi_pos]

theorem tan_radians_half_neg {s : ℝ} (h1 : 180 < s) (h2 : s < 360) :
    Real.tan (radians (s / 2)) < 0 := by
  rw [Real.tan_eq_sin_div_cos]
  exact div_neg_of_pos_of_neg (sin_radians_half_pos (by linarith) h2)
    (cos_radians_half_neg h1 (by linarith))

theorem dead_time_lt_ping_interval {D c dt s : ℝ} (hD : 0 < D) (hc : 0 < c)
    (h1 : 0 < s) (h2 : s < 180) : dt < ping_interval D c dt s := by
  have hcos := cos_radians_half_pos h1 h2
  have ht : 0 < 2 * (D / Real.cos (radians (s / 2))) / c :=
    div_pos (mul_pos two_pos (div_pos hD hcos)) hc
  show dt < 2 * (D / Real.cos (radians (s / 2))) / c + dt
  linarith

theorem ping_interval_pos {D c dt s : ℝ} (hD : 0 < D) (hc : 0 < c)
    (hdt : 0 ≤ dt) (h1 : 0 < s) (h2 : s < 180) :
    0 < ping_interval D c dt s :=
  lt_of_le_of_lt hdt (dead_time_lt_ping_interval hD hc h1 h2)

theorem ping_interval_lt_dead {D c dt s : ℝ} (hD : 0 < D) (hc : 0 < c)
    (h1 : 180 < s) (h2 : s < 540) : ping_interval D c dt s < dt := by
  have hcos := cos_radians_half_neg h1 h2
  have ht : 2 * (D / Real.cos (radians (s / 2))) / c < 0 :=
    div_neg_of_neg_of_pos
      (mul_neg_of_pos_of_neg two_pos (div_neg_of_pos_of_neg hD hcos)) hc
  show 2 * (D / Real.cos (radians (s / 2))) / c + dt < dt
  linarith

theorem ping_interval_neg {D c dt s : ℝ} (hD : 0 < D) (hc : 0 < c)
    (h1 : 180 < s) (h2 : s < 540) (hdt : dt < 2 * D / c) :
    ping_interval D c dt s < 0 := by
  have hcos := cos_radians_half_neg h1 h2
  have hcos1 : -1 ≤ Real.cos (radians (s / 2)) := Real.neg_one_le_cos _
  have hDx : D / Real.cos (radians (s / 2)) ≤ -D := by
    rw [div_le_iff_of_neg hcos]
    nlinarith [mul_le_mul_of_nonneg_left
      (show -Real.cos (radians (s / 2)) ≤ 1 by linarith) hD.le]
  have h3 : 2 * (D / Real.cos (radians (s / 2))) ≤ 2 * (-D) := by linarith
  have h4 : 2 * (D / Real.cos (radians (s / 2))) / c ≤ 2 * (-D) / c :=
    (div_le_div_iff_of_pos_right hc).2 h3
  have h5 : 2 * (-D) / c = -(2 * D / c) := by ring
  show 2 * (D / Real.cos (radians (s / 2))) / c + dt < 0
  linarith

theorem along_track_footprint_pos {D b : ℝ} (hD : 0 < D) (h1 : 0 < b)
    (h2 : b < 180) : 0 < along_track_footprint D b :=
  mul_pos (by linarith) (tan_radians_half_pos h1 h2)

theorem swath_width_pos {D s : ℝ} (hD : 0 < D) (h1 : 0 < s) (h2 : s < 180) :
    0 < swath_width D s :=
  mul_pos (by linarith) (tan_radians_half_pos h1 h2)

theorem swath_width_neg {D s : ℝ} (hD : 0 < D) (h1 : 180 < s)
    (h2 : s < 360) : swath_width D s < 0 :=
  mul_neg_of_pos_of_neg (by linarith) (tan_radians_half_neg h1 h2)

theorem effective_coverage_pct_ge (inp : Inputs) :
    100 ≤ effective_coverage_pct inp :=
  le_max_left _ _

theorem effective_coverage_pct_eq {inp : Inputs}
    (h : 100 ≤ inp.coverage_pct_user - inp.turn_margin) :
    effective_coverage_pct inp = inp.coverage_pct_user - inp.turn_margin :=
  max_eq_right h

end Mbes

namespace Mbes

/-! ### Projection lemmas for the core derivation -/

theorem speed_result_T (inp : Inputs) :
    (speed_result inp).T =
      ping_interval inp.depth inp.sound_speed inp.dead_time inp.swath_deg :=
  rfl

theorem speed_result_L (inp : Inputs) :
    (speed_result inp).L =
      along_track_footprint inp.depth inp.beam_width_deg :=
  rfl

theorem speed_result_W (inp : Inputs) :
    (speed_result inp).W = swath_width inp.depth inp.swath_deg :=
  rfl

theorem speed_result_advance_fraction (inp : Inputs) :
    (speed_result inp).advance_fraction =
      1 / (effective_coverage_pct inp / 100) :=
  rfl

theorem speed_result_along_step (inp : Inputs) :
    (speed_result inp).along_step =
      (speed_result inp).advance_fraction * (speed_result inp).L :=
  rfl

theorem speed_result_speed_ms (inp : Inputs) :
    (speed_result inp).speed_ms =
      (speed_result inp).along_step / (speed_result inp).T :=
  rfl

theorem speed_result_speed_kts (inp : Inputs) :
    (speed_result inp).speed_kts =
      (speed_result inp).speed_ms * KNOTS_PER_M_S :=
  rfl

theorem speed_result_v_opt_ms (inp : Inputs) :
    (speed_result inp).v_opt_ms =
      (speed_result inp).speed_ms * inp.speed_sf :=
  rfl

theorem speed_result_v_opt_knots (inp : Inputs) :
    (speed_result inp).v_opt_knots =
      (speed_result inp).speed_kts * inp.speed_sf :=
  rfl

theorem speed_result_v_min_ms (inp : Inputs) :
    (speed_result inp).v_min_ms =
      (speed_result inp).v_opt_ms * MIN_SPEED_RATIO :=
  rfl

theorem speed_result_v_min_knots (inp : Inputs) :
    (speed_result inp).v_min_knots =
      (speed_result inp).v_opt_knots * MIN_SPEED_RATIO :=
  rfl

theorem speed_result_line_spacing (inp : Inputs) :
    (speed_result inp).line_spacing =
      (speed_result inp).W / (effective_coverage_pct inp / 100) :=
  rfl

theorem speed_result_overlap_pct (inp : Inputs) :
    (speed_result inp).overlap_pct =
      max 0 (1 - (speed_result inp).line_spacing / (speed_result inp).W)
        * 100 :=
  rfl

theorem speed_result_det_req (inp : Inputs) :
    (speed_result inp).det_req =
      s44_cubic_feature_requirement inp.order_preset inp.depth :=
  rfl

theorem speed_result_det_req_eff (inp : Inputs) :
    (speed_result inp).det_req_eff =
      (speed_result inp).det_req.map fun r => r * inp.bottom_type_factor :=
  rfl

theorem speed_result_det_limit (inp : Inputs) :
    (speed_result inp).det_limit =
      (speed_result inp).det_req.map fun _ =>
        compute_detection_limit (speed_result inp).along_step
          (speed_result inp).line_spacing :=
  rfl

theorem speed_result_det_pass (inp : Inputs) :
    (speed_result inp).det_pass =
      (speed_result inp).det_req.bind fun r =>
        (speed_result inp).det_limit.map fun l => decide (l ≤ r) :=
  rfl

/-! ### Helpers for the run wrappers -/

theorem run_speed_calc_eq_ok {inp : Inputs}
    (h1 : ¬(inp.depth ≤ 0 ∨ inp.sound_speed ≤ 0))
    (h2 : ¬ effective_coverage_pct inp < 100)
    (h3 : ping_interval inp.depth inp.sound_speed inp.dead_time
      inp.swath_deg ≠ 0)
    (h4 : swath_width inp.depth inp.swath_deg ≠ 0) :
    run_speed_calc inp = .ok (speed_result inp) := by
  unfold run_speed_calc
  rw [if_neg h1, if_neg h2, if_neg h3, if_neg h4]

theorem run_speed_calc_ok_of_valid {inp : Inputs} (hD : 0 < inp.depth)
    (hc : 0 < inp.sound_speed) (hdt : 0 ≤ inp.dead_time)
    (hs1 : 0 < inp.swath_deg) (hs2 : inp.swath_deg < 180) :
    run_speed_calc inp = .ok (speed_result inp) :=
  run_speed_calc_eq_ok
    (by push_neg; exact ⟨hD, hc⟩)
    (not_lt.2 (by linarith [effective_coverage_pct_ge inp]))
    (ne_of_gt (ping_interval_pos hD hc hdt hs1 hs2))
    (ne_of_gt (swath_width_pos hD hs1 hs2))

theorem speed_result_speed_ms_pos {inp : Inputs} (hD : 0 < inp.depth)
    (hb1 : 0 < inp.beam_width_deg) (hb2 : inp.beam_width_deg < 180)
    (hs1 : 0 < inp.swath_deg) (hs2 : inp.swath_deg < 180)
    (hc : 0 < inp.sound_speed) (hdt : 0 ≤ inp.dead_time) :
    0 < (speed_result inp).speed_ms := by
  rw [speed_result_speed_ms, speed_result_along_step,
    speed_result_advance_fraction, speed_result_L, speed_result_T]
  have hL := along_track_footprint_pos hD hb1 hb2
  have hT := ping_interval_pos hD hc hdt hs1 hs2
  have hC : 0 < effective_coverage_pct inp / 100 := by
    linarith [effective_coverage_pct_ge inp]
  exact div_pos (mul_pos (by positivity) hL) hT

theorem speed_result_speed_kts_pos {inp : Inputs} (hD : 0 < inp.depth)
    (hb1 : 0 < inp.beam_width_deg) (hb2 : inp.beam_width_deg < 180)
    (hs1 : 0 < inp.swath_deg) (hs2 : inp.swath_deg < 180)
    (hc : 0 < inp.sound_speed) (hdt : 0 ≤ inp.dead_time) :
    0 < (speed_result inp).speed_kts := by
  rw [speed_result_speed_kts]
  have h := speed_result_speed_ms_pos hD hb1 hb2 hs1 hs2 hc hdt
  have hK : (0:ℝ) < KNOTS_PER_M_S := by unfold KNOTS_PER_M_S; norm_num
  exact mul_pos h hK

end Mbes

namespace Mbes

/-! ### Claims -/

/-- Claim C5: for every depth D > 0, swath angle in (0,180), sound speed
c > 0 and dead time Δt ≥ 0, `ping_interval D c Δt swath` equals
`2·(D / cos(swath/2 in radians))/c + Δt` and is strictly greater than Δt:
the two-way travel time to the outer beam is strictly positive. -/
theorem C5_ping_interval_formula_and_bound (D c dt s : ℝ) (hD : 0 < D)
    (hc : 0 < c) (hdt : 0 ≤ dt) (hs1 : 0 < s) (hs2 : s < 180) :
    ping_interval D c dt s = 2 * (D / Real.cos (radians (s / 2))) / c + dt ∧
    dt < ping_interval D c dt s :=
  ⟨rfl, dead_time_lt_ping_interval hD hc hs1 hs2⟩

/-- Witness for C5 at D = 100 m, c = 1500 m/s, Δt = 0.05 s, swath 120°. -/
theorem C5_witness :
    ping_interval 100 1500 0.05 120 =
      2 * (100 / Real.cos (radians (120 / 2))) / 1500 + 0.05 ∧
    (0.05 : ℝ) < ping_interval 100 1500 0.05 120 :=
  C5_ping_interval_formula_and_bound 100 1500 0.05 120 (by norm_num)
    (by norm_num) (by norm_num) (by norm_num) (by norm_num)

/-- Claim C8: for valid inputs (depth > 0, angle in (0,180)),
`along_track_footprint` and `swath_width` are strictly increasing in depth
with the angle fixed, and strictly increasing in their angle with depth
fixed. -/
theorem C8_footprint_swath_monotone (D1 D2 a1 a2 : ℝ) (hD1 : 0 < D1)
    (hD12 : D1 < D2) (ha1 : 0 < a1) (ha12 : a1 < a2) (ha2 : a2 < 180) :
    along_track_footprint D1 a1 < along_track_footprint D2 a1 ∧
    along_track_footprint D1 a1 < along_track_footprint D1 a2 ∧
    swath_width D1 a1 < swath_width D2 a1 ∧
    swath_width D1 a1 < swath_width D1 a2 := by
  have htan1 : 0 < Real.tan (radians (a1 / 2)) :=
    tan_radians_half_pos ha1 (lt_trans ha12 ha2)
  have hmono : Real.tan (radians (a1 / 2)) < Real.tan (radians (a2 / 2)) := by
    apply Real.tan_lt_tan_of_nonneg_of_lt_pi_div_two
    · unfold radians
      nlinarith [Real.pi_pos, mul_pos ha1 Real.pi_pos]
    · unfold radians
      nlinarith [mul_pos (show (0:ℝ) < 180 - a2 by linarith) Real.pi_pos]
    · unfold radians
      nlinarith [mul_pos (show (0:ℝ) < a2 - a1 by linarith) Real.pi_pos]
  have hdep : (2:ℝ) * D1 * Real.tan (radians (a1 / 2)) <
      2 * D2 * Real.tan (radians (a1 / 2)) :=
    mul_lt_mul_of_pos_right (by linarith) htan1
  have hang : (2:ℝ) * D1 * Real.tan (radians (a1 / 2)) <
      2 * D1 * Real.tan (radians (a2 / 2)) :=
    mul_lt_mul_of_pos_left hmono (by linarith)
  exact ⟨hdep, hang, hdep, hang⟩

/-- Witness for C8 at depths 100 < 200 and angles 60° < 90°. -/
theorem C8_witness :
    along_track_footprint 100 60 < along_track_footprint 200 60 ∧
    along_track_footprint 100 60 < along_track_footprint 100 90 ∧
    swath_width 100 60 < swath_width 200 60 ∧
    swath_width 100 60 < swath_width 100 90 :=
  C8_footprint_swath_monotone 100 200 60 90 (by norm_num) (by norm_num)
    (by norm_num) (by norm_num) (by norm_num)

end Mbes

namespace Mbes

/-- Claim C6: coverage identities.  For every valid input, when the
effective coverage is 100 % the advance fraction is 1, the along-track step
equals the footprint L, the line spacing equals the swath width W and the
overlap is exactly 0 %; when the effective coverage is 200 % the advance
fraction is 0.5 and the along-track step is exactly L/2. -/
theorem C6_coverage_identities (inp : Inputs) (hD : 0 < inp.depth)
    (hs1 : 0 < inp.swath_deg) (hs2 : inp.swath_deg < 180) :
    (effective_coverage_pct inp = 100 →
      (speed_result inp).advance_fraction = 1 ∧
      (speed_result inp).along_step = (speed_result inp).L ∧
      (speed_result inp).line_spacing = (speed_result inp).W ∧
      (speed_result inp).overlap_pct = 0) ∧
    (effective_coverage_pct inp = 200 →
      (speed_result inp).advance_fraction = 1 / 2 ∧
      (speed_result inp).along_step = (speed_result inp).L / 2) := by
  have hW : 0 < (speed_result inp).W := by
    rw [speed_result_W]
    exact swath_width_pos hD hs1 hs2
  constructor
  · intro h100
    have haf : (speed_result inp).advance_fraction = 1 := by
      rw [speed_result_advance_fraction, h100]
      norm_num
    have hls : (speed_result inp).line_spacing = (speed_result inp).W := by
      rw [speed_result_line_spacing, h100]
      norm_num
    refine ⟨haf, ?_, hls, ?_⟩
    · rw [speed_result_along_step, haf, one_mul]
    · rw [speed_result_overlap_pct, hls, div_self (ne_of_gt hW)]
      norm_num
  · intro h200
    have haf : (speed_result inp).advance_fraction = 1 / 2 := by
      rw [speed_result_advance_fraction, h200]
      norm_num
    refine ⟨haf, ?_⟩
    rw [speed_result_along_step, haf]
    ring

/-- Witness for C6 at the app's default geometry with requested coverage
100 % and no turning margin, so the effective coverage is 100 %. -/
theorem C6_witness :
    (speed_result goodInput).advance_fraction = 1 ∧
    (speed_result goodInput).along_step = (speed_result goodInput).L ∧
    (speed_result goodInput).line_spacing = (speed_result goodInput).W ∧
    (speed_result goodInput).overlap_pct = 0 :=
  (C6_coverage_identities goodInput (by norm_num [goodInput])
    (by norm_num [goodInput]) (by norm_num [goodInput])).1
    (by simp [effective_coverage_pct, goodInput])

/-- Claim C7: speed ordering invariant.  For every valid input with safety
factor in [0.40, 1.00], minimum ≤ optimum ≤ maximum speed (in both m/s and
knots), and since MIN_SPEED_RATIO is the fixed constant 0.5 the minimum
operational speed is strictly below the optimum whenever the optimum is
positive. -/
theorem C7_speed_ordering (inp : Inputs) (hD : 0 < inp.depth)
    (hb1 : 0 < inp.beam_width_deg) (hb2 : inp.beam_width_deg < 180)
    (hs1 : 0 < inp.swath_deg) (hs2 : inp.swath_deg < 180)
    (hc : 0 < inp.sound_speed) (hdt : 0 ≤ inp.dead_time)
    (hsf1 : 0.40 ≤ inp.speed_sf) (hsf2 : inp.speed_sf ≤ 1.00) :
    MIN_SPEED_RATIO = 0.5 ∧
    (speed_result inp).v_min_ms ≤ (speed_result inp).v_opt_ms ∧
    (speed_result inp).v_opt_ms ≤ (speed_result inp).speed_ms ∧
    (speed_result inp).v_min_knots ≤ (speed_result inp).v_opt_knots ∧
    (speed_result inp).v_opt_knots ≤ (speed_result inp).speed_kts ∧
    (0 < (speed_result inp).v_opt_knots →
      (speed_result inp).v_min_knots < (speed_result inp).v_opt_knots) := by
  have hms := speed_result_speed_ms_pos hD hb1 hb2 hs1 hs2 hc hdt
  have hk := speed_result_speed_kts_pos hD hb1 hb2 hs1 hs2 hc hdt
  rw [speed_result_v_min_ms, speed_result_v_min_knots, speed_result_v_opt_ms,
    speed_result_v_opt_knots]
  unfold MIN_SPEED_RATIO
  have hoptms : 0 ≤ (speed_result inp).speed_ms * inp.speed_sf := by
    nlinarith
  have hoptk : 0 ≤ (speed_result inp).speed_kts * inp.speed_sf := by
    nlinarith
  refine ⟨rfl, by linarith, ?_, by linarith, ?_, ?_⟩
  · nlinarith
  · nlinarith
  · intro hpos
    linarith

/-- Witness for C7 at the app's default geometry and safety factor 0.8. -/
theorem C7_witness :
    MIN_SPEED_RATIO = 0.5 ∧
    (speed_result goodInput).v_min_ms ≤ (speed_result goodInput).v_opt_ms ∧
    (speed_result goodInput).v_opt_ms ≤ (speed_result goodInput).speed_ms ∧
    (speed_result goodInput).v_min_knots ≤
      (speed_result goodInput).v_opt_knots ∧
    (speed_result goodInput).v_opt_knots ≤
      (speed_result goodInput).speed_kts ∧
    (0 < (speed_result goodInput).v_opt_knots →
      (speed_result goodInput).v_min_knots <
        (speed_result goodInput).v_opt_knots) :=
  C7_speed_ordering goodInput (by norm_num [goodInput])
    (by norm_num [goodInput]) (by norm_num [goodInput])
    (by norm_num [goodInput]) (by norm_num [goodInput])
    (by norm_num [goodInput]) (by norm_num [goodInput])
    (by norm_num [goodInput]) (by norm_num [goodInput])

end Mbes

namespace Mbes

/-- Claim C2, counterexample: at total swath 200° (outer-beam angle
100° ≥ 90°) the run completes with a numeric speed result — no
`GeometryError` is raised (no such error exists in the source, and
`ping_interval` performs no angle check). -/
theorem C2_counterexample :
    run_speed_calc c2Input = .ok (speed_result c2Input) := by
  have hT : ping_interval (100:ℝ) 1500 0.05 200 < 0 :=
    ping_interval_neg (by norm_num) (by norm_num) (by norm_num) (by norm_num)
      (by norm_num)
  have hW : swath_width (100:ℝ) 200 < 0 :=
    swath_width_neg (by norm_num) (by norm_num) (by norm_num)
  apply run_speed_calc_eq_ok
  · norm_num [c2Input]
  · rw [effective_coverage_pct_eq (by norm_num [c2Input])]
    norm_num [c2Input]
  · exact ne_of_lt hT
  · exact ne_of_lt hW

/-- Claim C2 (amended): the ping-interval computation performs no swath
validation and never fails — it is a total function.  For swath half-angle
strictly beyond 90° (swath in (180°, 540°), where the outer-beam cosine is
negative) it returns a numeric value that is even smaller than the dead
time (a negative two-way travel time), rather than raising any error. -/
theorem C2_amended_no_geometry_failure (D c dt s : ℝ) (hD : 0 < D)
    (hc : 0 < c) (h1 : 180 < s) (h2 : s < 540) :
    ping_interval D c dt s < dt :=
  ping_interval_lt_dead hD hc h1 h2

/-- Witness for the amended C2 at D = 100, c = 1500, Δt = 0.05, swath 200°. -/
theorem C2_witness : ping_interval 100 1500 0.05 200 < 0.05 :=
  C2_amended_no_geometry_failure 100 1500 0.05 200 (by norm_num)
    (by norm_num) (by norm_num) (by norm_num)

/-- Claim C3, counterexample: a swath of 190° is outside the spec's (0,180)
domain bound, yet the run does not fail fast — it produces a speed
result. -/
theorem C3_counterexample :
    run_speed_calc c3Input = .ok (speed_result c3Input) := by
  have hT : ping_interval (100:ℝ) 1500 0.05 190 < 0 :=
    ping_interval_neg (by norm_num) (by norm_num) (by norm_num) (by norm_num)
      (by norm_num)
  have hW : swath_width (100:ℝ) 190 < 0 :=
    swath_width_neg (by norm_num) (by norm_num) (by norm_num)
  apply run_speed_calc_eq_ok
  · norm_num [c3Input]
  · rw [effective_coverage_pct_eq (by norm_num [c3Input])]
    norm_num [c3Input]
  · exact ne_of_lt hT
  · exact ne_of_lt hW

/-- Claim C3 (amended): the calculation's fail-fast input validation
rejects exactly the inputs with depth ≤ 0 or sound speed ≤ 0 (producing no
speed result); swath or beam angles outside (0,180) and negative dead time
are not validated. -/
theorem C3_amended_validation_scope (inp : Inputs) :
    run_speed_calc inp = .error .depthSoundSpeedError ↔
      inp.depth ≤ 0 ∨ inp.sound_speed ≤ 0 := by
  constructor
  · intro h
    by_contra hn
    unfold run_speed_calc at h
    rw [if_neg hn] at h
    split_ifs at h <;> simp_all
  · intro h
    unfold run_speed_calc
    rw [if_pos h]

end Mbes

namespace Mbes

theorem c4_run_ok : run_speed_calc c4Input = .ok (speed_result c4Input) :=
  run_speed_calc_ok_of_valid (by norm_num [c4Input]) (by norm_num [c4Input])
    (by norm_num [c4Input]) (by norm_num [c4Input]) (by norm_num [c4Input])

theorem c4_speed_kts_zero : (speed_result c4Input).speed_kts = 0 := by
  rw [speed_result_speed_kts, speed_result_speed_ms, speed_result_along_step,
    speed_result_L]
  have hL : along_track_footprint c4Input.depth c4Input.beam_width_deg = 0 := by
    unfold along_track_footprint radians
    norm_num [c4Input, Real.tan_zero]
  rw [hL, mul_zero, zero_div, zero_mul]

/-- Claim C4, counterexample: with beam width 0 (which passes the source's
validation) the derived maximum speed is 0 ≤ 0, yet in speed-calculator
mode the run succeeds with that speed instead of failing with a
computation error. -/
theorem C4_counterexample :
    (run_speed_calc c4Input).map (fun r => r.speed_kts) = .ok 0 := by
  rw [c4_run_ok]
  simp [Except.map, c4_speed_kts_zero]

/-- Claim C4 (amended): the non-positive-speed guard exists only in
survey-planner mode — whenever the core calculation succeeds with a derived
maximum speed ≤ 0, the planner run fails with the non-positive-speed error
(while the speed-calculator run reports the speed as a normal result, see
the counterexample). -/
theorem C4_amended_guard_planner_only (inp : Inputs) (p : PlannerInputs)
    (r : SpeedResult) (h : run_speed_calc inp = .ok r)
    (hs : r.speed_kts ≤ 0) :
    run_planner_calc inp p = .error .nonPositiveSpeedError := by
  unfold run_planner_calc
  rw [h]
  simp [hs]

/-- Witness for the amended C4: the beam-width-0 run has speed 0 and the
planner run rejects it. -/
theorem C4_witness :
    run_planner_calc c4Input plannerBase = .error .nonPositiveSpeedError :=
  C4_amended_guard_planner_only c4Input plannerBase (speed_result c4Input)
    c4_run_ok (le_of_eq c4_speed_kts_zero)

theorem run_planner_calc_eq {inp : Inputs} {p : PlannerInputs}
    {r : SpeedResult} (h : run_speed_calc inp = .ok r) :
    run_planner_calc inp p =
      if r.speed_kts ≤ 0 then .error .nonPositiveSpeedError
      else if p.daily_hours = 0 then .error .genericException
      else .ok (r, planner_result r p) := by
  unfold run_planner_calc
  rw [h]

theorem run_planner_calc_error {inp : Inputs} {p : PlannerInputs}
    {e : CalcError} (h : run_speed_calc inp = .error e) :
    run_planner_calc inp p = .error e := by
  unfold run_planner_calc
  rw [h]

/-- Claim C9: planner aggregation.  For every planner run that succeeds,
the line count is ceil(areaWidth / lineSpacing) with a minimum of 1, the
total track length is lineCount × areaLength (in km), sailing hours divide
the track by speed_kts × 1.852 km/h, the overhead and weather allowances
compose multiplicatively in that order, and days = effective hours divided
by daily working hours. -/
theorem C9_planner_aggregation (inp : Inputs) (p : PlannerInputs)
    (r : SpeedResult) (pr : PlannerResult)
    (h : run_planner_calc inp p = .ok (r, pr)) :
    pr.n_lines = max 1 ⌈p.area_width_m / r.line_spacing⌉ ∧
    pr.total_track_km = (pr.n_lines : ℝ) * (p.area_length_m / 1000) ∧
    pr.survey_hours = pr.total_track_km / (r.speed_kts * 1.852) ∧
    pr.survey_hours_eff = pr.survey_hours * (1 + p.overhead_pct / 100) ∧
    pr.survey_hours_weather =
      pr.survey_hours_eff * (1 + p.weather_downtime_pct / 100) ∧
    pr.survey_days = pr.survey_hours_weather / p.daily_hours := by
  cases hrs : run_speed_calc inp with
  | error e =>
    rw [run_planner_calc_error hrs] at h
    simp at h
  | ok r' =>
    rw [run_planner_calc_eq hrs] at h
    split_ifs at h
    simp only [Except.ok.injEq, Prod.mk.injEq] at h
    obtain ⟨hr, hpr⟩ := h
    subst hr
    subst hpr
    exact ⟨rfl, rfl, rfl, rfl, rfl, rfl⟩

theorem c9_run_ok :
    run_planner_calc w9Input plannerBase =
      .ok (speed_result w9Input,
        planner_result (speed_result w9Input) plannerBase) := by
  have hok : run_speed_calc w9Input = .ok (speed_result w9Input) :=
    run_speed_calc_ok_of_valid (by norm_num [w9Input]) (by norm_num [w9Input])
      (by norm_num [w9Input]) (by norm_num [w9Input]) (by norm_num [w9Input])
  have hks : ¬ (speed_result w9Input).speed_kts ≤ 0 :=
    not_le.2 (speed_result_speed_kts_pos (by norm_num [w9Input])
      (by norm_num [w9Input]) (by norm_num [w9Input]) (by norm_num [w9Input])
      (by norm_num [w9Input]) (by norm_num [w9Input]) (by norm_num [w9Input]))
  rw [run_planner_calc_eq hok, if_neg hks,
    if_neg (show plannerBase.daily_hours ≠ 0 by norm_num [plannerBase])]

/-- Witness for C9 on a successful planner run over the 5000 m × 2000 m
default area. -/
theorem C9_witness :
    (planner_result (speed_result w9Input) plannerBase).n_lines =
      max 1 ⌈plannerBase.area_width_m /
        (speed_result w9Input).line_spacing⌉ ∧
    (planner_result (speed_result w9Input) plannerBase).total_track_km =
      ((planner_result (speed_result w9Input) plannerBase).n_lines : ℝ) *
        (plannerBase.area_length_m / 1000) ∧
    (planner_result (speed_result w9Input) plannerBase).survey_hours =
      (planner_result (speed_result w9Input) plannerBase).total_track_km /
        ((speed_result w9Input).speed_kts * 1.852) ∧
    (planner_result (speed_result w9Input) plannerBase).survey_hours_eff =
      (planner_result (speed_result w9Input) plannerBase).survey_hours *
        (1 + plannerBase.overhead_pct / 100) ∧
    (planner_result (speed_result w9Input) plannerBase).survey_hours_weather =
      (planner_result (speed_result w9Input) plannerBase).survey_hours_eff *
        (1 + plannerBase.weather_downtime_pct / 100) ∧
    (planner_result (speed_result w9Input) plannerBase).survey_days =
      (planner_result
        (speed_result w9Input) plannerBase).survey_hours_weather /
        plannerBase.daily_hours :=
  C9_planner_aggregation w9Input plannerBase (speed_result w9Input)
    (planner_result (speed_result w9Input) plannerBase) c9_run_ok

end Mbes

namespace Mbes

theorem bug_run_ok : run_speed_calc bugInput = .ok (speed_result bugInput) :=
  run_speed_calc_ok_of_valid (by norm_num [bugInput]) (by norm_num [bugInput])
    (by norm_num [bugInput]) (by norm_num [bugInput]) (by norm_num [bugInput])

theorem bug_det_req : (speed_result bugInput).det_req = some 0.5 := rfl

theorem bug_det_limit :
    (speed_result bugInput).det_limit = some (Real.sqrt 2 / 4) := by
  have heff : effective_coverage_pct bugInput = 200 := by
    rw [effective_coverage_pct_eq (by norm_num [bugInput])]
    norm_num [bugInput]
  have hL : along_track_footprint bugInput.depth bugInput.beam_width_deg
      = 2 := by
    unfold along_track_footprint
    rw [show radians (bugInput.beam_width_deg / 2) = Real.pi / 4 by
      unfold radians
      show (90:ℝ) / 2 * Real.pi / 180 = Real.pi / 4
      ring]
    rw [Real.tan_pi_div_four]
    norm_num [bugInput]
  have hW : swath_width bugInput.depth bugInput.swath_deg = 2 := by
    unfold swath_width
    rw [show radians (bugInput.swath_deg / 2) = Real.pi / 4 by
      unfold radians
      show (90:ℝ) / 2 * Real.pi / 180 = Real.pi / 4
      ring]
    rw [Real.tan_pi_div_four]
    norm_num [bugInput]
  rw [speed_result_det_limit, bug_det_req, speed_result_along_step,
    speed_result_advance_fraction, speed_result_L, speed_result_line_spacing,
    speed_result_W, hL, hW, heff]
  simp only [Option.map_some']
  norm_num [compute_detection_limit, hypot]

theorem bug_det_req_eff :
    (speed_result bugInput).det_req_eff = some 0.25 := by
  rw [speed_result_det_req_eff, bug_det_req]
  simp only [Option.map_some']
  norm_num [bugInput]

theorem bug_det_pass : (speed_result bugInput).det_pass = some true := by
  rw [speed_result_det_pass, bug_det_limit, bug_det_req]
  simp only [Option.some_bind, Option.map_some', Option.some.injEq,
    decide_eq_true_eq]
  have h2 : Real.sqrt 2 ≤ 2 :=
    (Real.sqrt_le_left (by norm_num)).mpr (by norm_num)
  linarith

/-- Claim C1: the spec (and the source's own comment at lines 431-432)
requires the compliance verdict to compare the detection limit against the
effective requirement `det_req * bottom_type_factor`, but the source
compares against the raw `det_req` (line 565) and never uses `det_req_eff`.
At the concrete rough-bottom Exclusive-Order input `bugInput` the code
reports compliant (detection limit √2/4 ≈ 0.354 ≤ raw 0.5) although the
detection limit exceeds the effective requirement 0.25. -/
theorem C1_code_bug_eval :
    (run_speed_calc bugInput).map (fun r => r.det_pass) = .ok (some true) ∧
    (run_speed_calc bugInput).map (fun r => r.det_limit) =
      .ok (some (Real.sqrt 2 / 4)) ∧
    (run_speed_calc bugInput).map (fun r => r.det_req) = .ok (some 0.5) ∧
    (run_speed_calc bugInput).map (fun r => r.det_req_eff) =
      .ok (some 0.25) ∧
    ¬ Real.sqrt 2 / 4 ≤ 0.25 := by
  refine ⟨?_, ?_, ?_, ?_, ?_⟩
  · rw [bug_run_ok]
    simp [Except.map, bug_det_pass]
  · rw [bug_run_ok]
    simp [Except.map, bug_det_limit]
  · rw [bug_run_ok]
    simp [Except.map, bug_det_req]
  · rw [bug_run_ok]
    simp [Except.map, bug_det_req_eff]
  · have h1 : (1:ℝ) < Real.sqrt 2 :=
      (Real.lt_sqrt (by norm_num)).mpr (by norm_num)
    intro hcon
    linarith

/-- Claim C10: for every pair of runs differing only in the bottom-type
factor (1.0 vs 0.5), the reported cubic-feature compliance verdict is
identical — the factor has no influence on the pass/fail outcome, because
the source compares the detection limit against the raw requirement. -/
theorem C10_bottom_type_factor_no_influence (inp : Inputs) :
    (run_speed_calc { inp with bottom_type_factor := 1.0 }).map
      (fun r => r.det_pass) =
    (run_speed_calc { inp with bottom_type_factor := 0.5 }).map
      (fun r => r.det_pass) := by
  have key : ∀ v : ℝ, run_speed_calc { inp with bottom_type_factor := v } =
      if inp.depth ≤ 0 ∨ inp.sound_speed ≤ 0 then
        .error .depthSoundSpeedError
      else if effective_coverage_pct inp < 100 then .error .coverageError
      else if ping_interval inp.depth inp.sound_speed inp.dead_time
          inp.swath_deg = 0 then .error .genericException
      else if swath_width inp.depth inp.swath_deg = 0 then
        .error .genericException
      else .ok (speed_result { inp with bottom_type_factor := v }) :=
    fun v => rfl
  rw [key 1.0, key 0.5]
  split_ifs <;> rfl

end Mbes
